import Mathlib

/-!
Verification of the SLO transform lifecycle manager
(`x-pack/plugins/observability/server/services/slo/transform_manager.ts`)
against its design specification.

The manager wraps an Elasticsearch transform API with five lifecycle
operations (install, preview, start, stop, uninstall), each guarded by a
retry-on-transient-error policy.  We embed the manager shallowly: the
external Elasticsearch client is modelled as an attempt-indexed stream of
backend outcomes, and each operation returns its result together with the
list of backend requests it issued and the log entries it emitted.
-/

namespace SloTransform

/-- An error raised by one backend call, as seen by the retry policy:
its HTTP-like status code, whether the policy classifies it as transient
(retryable), and its message. -/
structure OpError where
  statusCode : Nat
  transient : Bool
  message : String
deriving DecidableEq, Repr

/-- Log severities used by the manager and the retry policy. -/
inductive Severity where
  | warn
  | error
deriving DecidableEq, Repr

/-- A log entry: either a retry warning from the retry policy (attempt
count plus the original error), an error-severity entry from the retry
policy for a non-retried or retries-exhausted failure, or an
error-severity message logged by the transform manager itself. -/
inductive LogEntry where
  | retryWarn (attempt : Nat) (err : OpError)
  | policyError (err : OpError)
  | mgrError (msg : String)
deriving DecidableEq, Repr

/-- Severity of a log entry. -/
def LogEntry.sev : LogEntry → Severity
  | .retryWarn _ _ => .warn
  | .policyError _ => .error
  | .mgrError _ => .error

/-- Whether a log entry is an error-severity entry emitted by the
transform manager (the controller), as opposed to the retry policy. -/
def LogEntry.isMgrError : LogEntry → Bool
  | .mgrError _ => true
  | _ => false

/-- Classified failure returned by the retry policy: a fatal error is
propagated without any retry; a retries-exhausted error wraps the last
transient error after all retries failed.  The two are distinct
constructors, so callers can branch on the distinction. -/
inductive RetryFailure where
  | fatal (err : OpError)
  | retriesExhausted (last : OpError)
deriving DecidableEq, Repr

/-- The discriminator a caller can branch on: `true` exactly on
retries-exhausted failures, `false` on fatal (never-retried) ones. -/
def RetryFailure.isExhausted : RetryFailure → Bool
  | .retriesExhausted _ => true
  | .fatal _ => false

/-- Modelled from the spec: the retry configuration of section 3
(`RetryConfig: maxRetries: integer >= 0, baseDelay: duration, logger`).
The logger sink is modelled by the log trace the policy returns. -/
structure RetryConfig where
  maxRetries : Nat
  baseDelay : Nat
deriving DecidableEq, Repr

/-- Everything one call to the retry policy produces: the classified
result, the number of invocations of the wrapped operation, the log
entries emitted, and the backoff delays slept between attempts. -/
structure RetryOutcome (α : Type) where
  result : Except RetryFailure α
  calls : Nat
  logs : List LogEntry
  delays : List Nat
deriving Repr

/-- Modelled from the spec: the repository's retry utility
(`retryTransientEsErrors` in
`x-pack/plugins/observability/server/utils/retry.ts`) is imported by the
transform manager but its source is not part of this excerpt; this
definition follows section 4.1 of the spec.  The wrapped operation is
attempt-indexed (`op attempt`).  On success the result is returned at
once.  A transient failure is retried while retries remain, after a
backoff delay of `baseDelay * 2 ^ attempt` (indexed by the attempt that
just failed), each retry logged with its attempt count and the original
error; when retries are exhausted the last transient error is wrapped in
`RetryFailure.retriesExhausted` and logged once at error severity.  A
fatal (non-transient) failure is never retried and is logged once at
error severity. -/
def executeWithRetryAux (op : Nat → Except OpError α) (baseDelay : Nat)
    (attempt remaining : Nat) : RetryOutcome α :=
  match op attempt with
  | .ok v => ⟨.ok v, 1, [], []⟩
  | .error e =>
    if e.transient then
      match remaining with
      | 0 => ⟨.error (.retriesExhausted e), 1, [.policyError e], []⟩
      | r + 1 =>
        let rest := executeWithRetryAux op baseDelay (attempt + 1) r
        ⟨rest.result, rest.calls + 1, .retryWarn (attempt + 1) e :: rest.logs,
          baseDelay * 2 ^ attempt :: rest.delays⟩
    else ⟨.error (.fatal e), 1, [.policyError e], []⟩

/-- Modelled from the spec: `executeWithRetry(op, config)` of section
4.1, starting at attempt 0 with `config.maxRetries` retries remaining. -/
def executeWithRetry (op : Nat → Except OpError α) (cfg : RetryConfig) :
    RetryOutcome α :=
  executeWithRetryAux op cfg.baseDelay 0 cfg.maxRetries

/-- Outcome of one backend (Elasticsearch transform API) call: success,
or an error carrying a status code, the transient classification the
retry policy would give it, and a message. -/
inductive EsOutcome where
  | ok
  | err (statusCode : Nat) (transient : Bool) (message : String)
deriving DecidableEq, Repr

/-- Modelled from the spec: the Elasticsearch client's `ignore` transport
option (section 6: `start(jobId, {ignoreConflict})`,
`stop/delete(jobId, {ignoreNotFound})`).  The client itself is external
to the excerpt; a response whose status code is in the `ignore` list
resolves as success instead of raising. -/
def esCall (outcome : EsOutcome) (ignoredCodes : List Nat) :
    Except OpError Unit :=
  match outcome with
  | .ok => .ok ()
  | .err code tr msg =>
      if code ∈ ignoredCodes then .ok () else .error ⟨code, tr, msg⟩

/-- Transform request parameters produced by a generator
(`getTransformParams` in the source): the transform id together with the
rest of the request body, kept opaque. -/
structure TransformParams where
  transform_id : String
  body : String
deriving DecidableEq, Repr

/-- A transform generator (`TransformGenerator` in the source): maps an
SLO definition to its transform request parameters. -/
structure Indicator where
  type : String
deriving DecidableEq, Repr

/-- An SLO definition; only the indicator type is inspected by the
manager (`slo.indicator.type`). -/
structure SLO where
  indicator : Indicator
deriving DecidableEq, Repr

structure TransformGenerator where
  getTransformParams : SLO → TransformParams

/-- One request issued to the backend, with exactly the parameters the
source passes: `putTransform(transformParams)`,
`previewTransform({transform_id})`,
`startTransform({transform_id}, {ignore: [409]})`,
`stopTransform({transform_id, wait_for_completion: true, force: true},
{ignore: [404]})`,
`deleteTransform({transform_id, force: true}, {ignore: [404]})`. -/
inductive EsRequest where
  | putTransform (params : TransformParams)
  | previewTransform (transform_id : String)
  | startTransform (transform_id : String) (ignoredCodes : List Nat)
  | stopTransform (transform_id : String) (wait_for_completion : Bool)
      (force : Bool) (ignoredCodes : List Nat)
  | deleteTransform (transform_id : String) (force : Bool)
      (ignoredCodes : List Nat)
deriving DecidableEq, Repr

/-- An error surfaced by a manager operation: either the plain `Error`
thrown synchronously by `install` for an unsupported indicator type, or
the failure re-raised from the retry policy. -/
inductive MgrError where
  | thrown (msg : String)
  | retryErr (f : RetryFailure)
deriving DecidableEq, Repr

/-- Everything one manager operation produces: its result, the backend
requests issued (in order), the log entries emitted (retry-policy
entries followed by any manager error log), and how many times the retry
policy was invoked. -/
structure MgrOutcome (α : Type) where
  result : Except MgrError α
  backendCalls : List EsRequest
  logs : List LogEntry
  retryPolicyCalls : Nat
deriving Repr

/-- The shared try/catch shape of every manager operation: run the retry
policy around one backend request; on success return its value; on
failure log `failMsg` at error severity and re-raise the same failure.
Each of the retry policy's invocations of the operation issues the same
backend request. -/
def wrapRetry (ro : RetryOutcome α) (req : EsRequest) (failMsg : String) :
    MgrOutcome α :=
  match ro.result with
  | .ok v => ⟨.ok v, List.replicate ro.calls req, ro.logs, 1⟩
  | .error f =>
      ⟨.error (.retryErr f), List.replicate ro.calls req,
        ro.logs ++ [.mgrError failMsg], 1⟩

namespace DefaultTransformManager

/-- `DefaultTransformManager.install` (transform_manager.ts lines
31-49): look up the generator for the SLO's indicator type; if none,
log once at error severity and throw
`Unsupported indicator type [<type>]` synchronously, with no backend
call and without invoking the retry policy.  Otherwise build the
transform params, `putTransform` them under the retry policy, and on
success return the generated `transform_id`. -/
def install (generators : String → Option TransformGenerator)
    (behavior : Nat → EsOutcome) (cfg : RetryConfig) (slo : SLO) :
    MgrOutcome String :=
  match generators slo.indicator.type with
  | none =>
      ⟨.error (.thrown ("Unsupported indicator type [" ++
          slo.indicator.type ++ "]")),
        [],
        [.mgrError ("No transform generator found for indicator type [" ++
          slo.indicator.type ++ "]")],
        0⟩
  | some generator =>
      let transformParams := generator.getTransformParams slo
      let ro := executeWithRetry (fun i => esCall (behavior i) []) cfg
      match ro.result with
      | .ok _ =>
          ⟨.ok transformParams.transform_id,
            List.replicate ro.calls (.putTransform transformParams),
            ro.logs, 1⟩
      | .error f =>
          ⟨.error (.retryErr f),
            List.replicate ro.calls (.putTransform transformParams),
            ro.logs ++ [.mgrError
              ("Cannot create SLO transform for indicator type [" ++
                slo.indicator.type ++ "]")],
            1⟩

/-- `DefaultTransformManager.preview` (lines 51-61). -/
def preview (behavior : Nat → EsOutcome) (cfg : RetryConfig)
    (transformId : String) : MgrOutcome Unit :=
  wrapRetry (executeWithRetry (fun i => esCall (behavior i) []) cfg)
    (.previewTransform transformId)
    ("Cannot preview SLO transform [" ++ transformId ++ "]")

/-- `DefaultTransformManager.start` (lines 63-74): `startTransform` with
`ignore: [409]`. -/
def start (behavior : Nat → EsOutcome) (cfg : RetryConfig)
    (transformId : String) : MgrOutcome Unit :=
  wrapRetry (executeWithRetry (fun i => esCall (behavior i) [409]) cfg)
    (.startTransform transformId [409])
    ("Cannot start SLO transform [" ++ transformId ++ "]")

/-- `DefaultTransformManager.stop` (lines 76-90): `stopTransform` with
`wait_for_completion: true`, `force: true` and `ignore: [404]`. -/
def stop (behavior : Nat → EsOutcome) (cfg : RetryConfig)
    (transformId : String) : MgrOutcome Unit :=
  wrapRetry (executeWithRetry (fun i => esCall (behavior i) [404]) cfg)
    (.stopTransform transformId true true [404])
    ("Cannot stop SLO transform [" ++ transformId ++ "]")

/-- `DefaultTransformManager.uninstall` (lines 92-106):
`deleteTransform` with `force: true` and `ignore: [404]`. -/
def uninstall (behavior : Nat → EsOutcome) (cfg : RetryConfig)
    (transformId : String) : MgrOutcome Unit :=
  wrapRetry (executeWithRetry (fun i => esCall (behavior i) [404]) cfg)
    (.deleteTransform transformId true [404])
    ("Cannot delete SLO transform [" ++ transformId ++ "]")

end DefaultTransformManager

end SloTransform

namespace SloTransform

/-! Unfolding lemmas for the retry policy. -/

lemma executeWithRetryAux_ok (op : Nat → Except OpError α) (bd a r : Nat)
    (v : α) (h : op a = .ok v) :
    executeWithRetryAux op bd a r = ⟨.ok v, 1, [], []⟩ := by
  unfold executeWithRetryAux
  rw [h]

lemma executeWithRetryAux_fatal (op : Nat → Except OpError α) (bd a r : Nat)
    (e : OpError) (h : op a = .error e) (ht : e.transient = false) :
    executeWithRetryAux op bd a r = ⟨.error (.fatal e), 1, [.policyError e], []⟩ := by
  unfold executeWithRetryAux
  rw [h]
  simp [ht]

lemma executeWithRetryAux_exhausted (op : Nat → Except OpError α) (bd a : Nat)
    (e : OpError) (h : op a = .error e) (ht : e.transient = true) :
    executeWithRetryAux op bd a 0 =
      ⟨.error (.retriesExhausted e), 1, [.policyError e], []⟩ := by
  unfold executeWithRetryAux
  rw [h]
  simp [ht]

lemma executeWithRetryAux_retry (op : Nat → Except OpError α) (bd a r : Nat)
    (e : OpError) (h : op a = .error e) (ht : e.transient = true) :
    executeWithRetryAux op bd a (r + 1) =
      ⟨(executeWithRetryAux op bd (a + 1) r).result,
        (executeWithRetryAux op bd (a + 1) r).calls + 1,
        .retryWarn (a + 1) e :: (executeWithRetryAux op bd (a + 1) r).logs,
        bd * 2 ^ a :: (executeWithRetryAux op bd (a + 1) r).delays⟩ := by
  conv_lhs => unfold executeWithRetryAux
  rw [h]
  simp [ht]

/-! Claims about the lifecycle controller. -/

/-- Claim C1: for every SLO definition whose indicator type has no entry
in the generator registry, `install` raises the synchronous error
`Unsupported indicator type [<type>]`, issues zero backend calls, never
invokes the retry policy, and logs exactly one entry, at error severity,
before throwing. -/
theorem install_unsupported_indicator_type
    (generators : String → Option TransformGenerator)
    (behavior : Nat → EsOutcome) (cfg : RetryConfig) (slo : SLO)
    (h : generators slo.indicator.type = none) :
    (DefaultTransformManager.install generators behavior cfg slo).result =
      .error (.thrown ("Unsupported indicator type [" ++
        slo.indicator.type ++ "]")) ∧
    (DefaultTransformManager.install generators behavior cfg slo).backendCalls = [] ∧
    (DefaultTransformManager.install generators behavior cfg slo).retryPolicyCalls = 0 ∧
    (DefaultTransformManager.install generators behavior cfg slo).logs =
      [.mgrError ("No transform generator found for indicator type [" ++
        slo.indicator.type ++ "]")] ∧
    (LogEntry.mgrError ("No transform generator found for indicator type [" ++
      slo.indicator.type ++ "]")).sev = Severity.error := by
  simp [DefaultTransformManager.install, h, LogEntry.sev]

/-- Claim C1 witness at a concrete input: an empty registry and the
indicator type `X`. -/
theorem install_unsupported_indicator_type_witness :
    (DefaultTransformManager.install (fun _ => none) (fun _ => .ok) ⟨3, 1⟩
        ⟨⟨"X"⟩⟩).result =
      .error (.thrown ("Unsupported indicator type [" ++ "X" ++ "]")) ∧
    (DefaultTransformManager.install (fun _ => none) (fun _ => .ok) ⟨3, 1⟩
        ⟨⟨"X"⟩⟩).backendCalls = [] ∧
    (DefaultTransformManager.install (fun _ => none) (fun _ => .ok) ⟨3, 1⟩
        ⟨⟨"X"⟩⟩).retryPolicyCalls = 0 ∧
    (DefaultTransformManager.install (fun _ => none) (fun _ => .ok) ⟨3, 1⟩
        ⟨⟨"X"⟩⟩).logs =
      [.mgrError ("No transform generator found for indicator type [" ++
        "X" ++ "]")] ∧
    (LogEntry.mgrError ("No transform generator found for indicator type [" ++
      "X" ++ "]")).sev = Severity.error :=
  install_unsupported_indicator_type (fun _ => none) (fun _ => .ok) ⟨3, 1⟩
    ⟨⟨"X"⟩⟩ rfl

/-- Claim C5: when the backend reports a conflict (status 409, job
already running) on the start call, `start` resolves to success after
exactly one backend call, with zero retries and nothing logged. -/
theorem start_conflict_is_success (behavior : Nat → EsOutcome)
    (cfg : RetryConfig) (transformId : String) (tr : Bool) (m : String)
    (h : behavior 0 = .err 409 tr m) :
    (DefaultTransformManager.start behavior cfg transformId).result = .ok () ∧
    (DefaultTransformManager.start behavior cfg transformId).backendCalls =
      [.startTransform transformId [409]] ∧
    (DefaultTransformManager.start behavior cfg transformId).logs = [] := by
  have hop : esCall (behavior 0) [409] = Except.ok () := by
    simp [esCall, h]
  simp [DefaultTransformManager.start, wrapRetry, executeWithRetry,
    executeWithRetryAux_ok (fun i => esCall (behavior i) [409]) cfg.baseDelay
      0 cfg.maxRetries () hop]

/-- Claim C5 witness: a backend that answers the first start call with a
conflict. -/
theorem start_conflict_is_success_witness :
    (DefaultTransformManager.start
        (fun _ => .err 409 false "resource_already_exists") ⟨3, 1⟩
        "job-1").result = .ok () ∧
    (DefaultTransformManager.start
        (fun _ => .err 409 false "resource_already_exists") ⟨3, 1⟩
        "job-1").backendCalls = [.startTransform "job-1" [409]] ∧
    (DefaultTransformManager.start
        (fun _ => .err 409 false "resource_already_exists") ⟨3, 1⟩
        "job-1").logs = [] :=
  start_conflict_is_success
    (fun _ => .err 409 false "resource_already_exists") ⟨3, 1⟩
    "job-1" false "resource_already_exists" rfl

/-- Claim C6: when the backend reports not-found (status 404) on the
stop or delete call, both `stop` and `uninstall` resolve to success
after one backend call; job absence is never a failure for these two
operations. -/
theorem stop_uninstall_not_found_is_success (behavior : Nat → EsOutcome)
    (cfg : RetryConfig) (transformId : String) (tr : Bool) (m : String)
    (h : behavior 0 = .err 404 tr m) :
    (DefaultTransformManager.stop behavior cfg transformId).result = .ok () ∧
    (DefaultTransformManager.stop behavior cfg transformId).backendCalls =
      [.stopTransform transformId true true [404]] ∧
    (DefaultTransformManager.uninstall behavior cfg transformId).result = .ok () ∧
    (DefaultTransformManager.uninstall behavior cfg transformId).backendCalls =
      [.deleteTransform transformId true [404]] := by
  have hop : esCall (behavior 0) [404] = Except.ok () := by
    simp [esCall, h]
  simp [DefaultTransformManager.stop, DefaultTransformManager.uninstall,
    wrapRetry, executeWithRetry,
    executeWithRetryAux_ok (fun i => esCall (behavior i) [404]) cfg.baseDelay
      0 cfg.maxRetries () hop]

/-- Claim C6 witness: a backend that answers the first call with
not-found. -/
theorem stop_uninstall_not_found_is_success_witness :
    (DefaultTransformManager.stop
        (fun _ => .err 404 false "resource_not_found") ⟨3, 1⟩
        "job-2").result = .ok () ∧
    (DefaultTransformManager.stop
        (fun _ => .err 404 false "resource_not_found") ⟨3, 1⟩
        "job-2").backendCalls = [.stopTransform "job-2" true true [404]] ∧
    (DefaultTransformManager.uninstall
        (fun _ => .err 404 false "resource_not_found") ⟨3, 1⟩
        "job-2").result = .ok () ∧
    (DefaultTransformManager.uninstall
        (fun _ => .err 404 false "resource_not_found") ⟨3, 1⟩
        "job-2").backendCalls = [.deleteTransform "job-2" true [404]] :=
  stop_uninstall_not_found_is_success
    (fun _ => .err 404 false "resource_not_found") ⟨3, 1⟩
    "job-2" false "resource_not_found" rfl

end SloTransform

namespace SloTransform

/-- Claim C8: for every SLO definition whose kind has a registered
generator, a successful `install` returns exactly the `transform_id`
component of the transform params produced by that generator for the
definition. -/
theorem install_returns_generator_transform_id
    (generators : String → Option TransformGenerator)
    (behavior : Nat → EsOutcome) (cfg : RetryConfig) (slo : SLO)
    (gen : TransformGenerator) (tid : String)
    (hg : generators slo.indicator.type = some gen)
    (hok : (DefaultTransformManager.install generators behavior cfg slo).result =
      .ok tid) :
    tid = (gen.getTransformParams slo).transform_id := by
  simp only [DefaultTransformManager.install, hg] at hok
  split at hok
  · simp only [Except.ok.injEq] at hok
    exact hok.symm
  · exact absurd hok (by simp)

/-- Claim C8 witness: a registry mapping every kind to a generator
producing transform id `slo-1`, a backend that accepts the put. -/
theorem install_returns_generator_transform_id_witness :
    "slo-1" =
      ((TransformGenerator.mk (fun _ => ⟨"slo-1", "b"⟩)).getTransformParams
        ⟨⟨"sli.kql.custom"⟩⟩).transform_id :=
  install_returns_generator_transform_id
    (fun _ => some ⟨fun _ => ⟨"slo-1", "b"⟩⟩) (fun _ => .ok) ⟨2, 1⟩
    ⟨⟨"sli.kql.custom"⟩⟩ ⟨fun _ => ⟨"slo-1", "b"⟩⟩ "slo-1" rfl rfl

/-- Claim C9: every backend request issued by `stop` is a
`stopTransform` request with `wait_for_completion = true` (and
`force = true`, `ignore: [404]`): the whole list of backend calls is a
replication of that one request. -/
theorem stop_requests_wait_for_completion (behavior : Nat → EsOutcome)
    (cfg : RetryConfig) (transformId : String) :
    (DefaultTransformManager.stop behavior cfg transformId).backendCalls =
      List.replicate
        (DefaultTransformManager.stop behavior cfg transformId).backendCalls.length
        (.stopTransform transformId true true [404]) := by
  unfold DefaultTransformManager.stop wrapRetry
  split <;> simp

/-- Claim C10: `stop` and `uninstall` always issue their backend
requests with `force = true`; in particular every delete request of
`uninstall` is forced, so uninstall never requires the job to have been
stopped first. -/
theorem stop_uninstall_always_force (behavior : Nat → EsOutcome)
    (cfg : RetryConfig) (transformId : String) :
    (DefaultTransformManager.stop behavior cfg transformId).backendCalls =
      List.replicate
        (DefaultTransformManager.stop behavior cfg transformId).backendCalls.length
        (.stopTransform transformId true true [404]) ∧
    (DefaultTransformManager.uninstall behavior cfg transformId).backendCalls =
      List.replicate
        (DefaultTransformManager.uninstall behavior cfg transformId).backendCalls.length
        (.deleteTransform transformId true [404]) := by
  refine ⟨?_, ?_⟩
  · unfold DefaultTransformManager.stop wrapRetry
    split <;> simp
  · unfold DefaultTransformManager.uninstall wrapRetry
    split <;> simp

/-- Claim C4: an operation whose first attempt fails with a fatal
(non-transient) error is invoked exactly once by the retry policy, with
no retries and no backoff delay; the fatal error is propagated, wrapped
as `RetryFailure.fatal`, with a single log entry, at error severity, and
the failure is distinguishable from a retries-exhausted one. -/
theorem executeWithRetry_fatal_no_retry (op : Nat → Except OpError α)
    (cfg : RetryConfig) (e : OpError) (hop : op 0 = .error e)
    (ht : e.transient = false) :
    (executeWithRetry op cfg).calls = 1 ∧
    (executeWithRetry op cfg).result = .error (.fatal e) ∧
    (executeWithRetry op cfg).logs = [.policyError e] ∧
    (LogEntry.policyError e).sev = Severity.error ∧
    (executeWithRetry op cfg).delays = [] ∧
    (RetryFailure.fatal e).isExhausted = false := by
  rw [executeWithRetry,
    executeWithRetryAux_fatal op cfg.baseDelay 0 cfg.maxRetries e hop ht]
  simp [LogEntry.sev, RetryFailure.isExhausted]

/-- Claim C4 witness: a validation failure (400) on the first attempt,
with three retries allowed but none taken. -/
theorem executeWithRetry_fatal_no_retry_witness :
    (executeWithRetry (fun _ => (Except.error ⟨400, false, "bad request"⟩ : Except OpError Unit))
      (⟨3, 5⟩ : RetryConfig)).calls = 1 ∧
    (executeWithRetry (fun _ => (Except.error ⟨400, false, "bad request"⟩ : Except OpError Unit))
      (⟨3, 5⟩ : RetryConfig)).result =
        .error (.fatal ⟨400, false, "bad request"⟩) ∧
    (executeWithRetry (fun _ => (Except.error ⟨400, false, "bad request"⟩ : Except OpError Unit))
      (⟨3, 5⟩ : RetryConfig)).logs =
        [.policyError ⟨400, false, "bad request"⟩] ∧
    (LogEntry.policyError ⟨400, false, "bad request"⟩).sev = Severity.error ∧
    (executeWithRetry (fun _ => (Except.error ⟨400, false, "bad request"⟩ : Except OpError Unit))
      (⟨3, 5⟩ : RetryConfig)).delays = [] ∧
    (RetryFailure.fatal ⟨400, false, "bad request"⟩).isExhausted = false :=
  executeWithRetry_fatal_no_retry
    (fun _ => (Except.error ⟨400, false, "bad request"⟩ : Except OpError Unit)) ⟨3, 5⟩
    ⟨400, false, "bad request"⟩ rfl rfl

end SloTransform

namespace SloTransform

lemma executeWithRetryAux_all_transient (α : Type) (errAt : Nat → OpError)
    (bd : Nat) (hTr : ∀ i, (errAt i).transient = true) (r : Nat) : ∀ a : Nat,
    (executeWithRetryAux (fun i => (Except.error (errAt i) : Except OpError α))
      bd a r).calls = r + 1 ∧
    (executeWithRetryAux (fun i => (Except.error (errAt i) : Except OpError α))
      bd a r).result = Except.error (.retriesExhausted (errAt (a + r))) := by
  induction r with
  | zero =>
      intro a
      rw [executeWithRetryAux_exhausted
        (fun i => (Except.error (errAt i) : Except OpError α)) bd a
        (errAt a) rfl (hTr a)]
      simp
  | succ n ih =>
      intro a
      rw [executeWithRetryAux_retry
        (fun i => (Except.error (errAt i) : Except OpError α)) bd a n
        (errAt a) rfl (hTr a)]
      obtain ⟨ih1, ih2⟩ := ih (a + 1)
      have hn : a + 1 + n = a + (n + 1) := by omega
      exact ⟨by simp [ih1], by simp [ih2, hn]⟩

/-- Claim C2: for every operation all of whose attempts fail with
transient errors and every retry configuration, `executeWithRetry`
invokes the operation exactly `maxRetries + 1` times and returns a
retries-exhausted failure wrapping the error of the last attempt, which
the caller can distinguish from a fatal (never-retried) failure. -/
theorem executeWithRetry_exhausts_transient (α : Type) (errAt : Nat → OpError)
    (cfg : RetryConfig) (hTr : ∀ i, (errAt i).transient = true) :
    (executeWithRetry (fun i => (Except.error (errAt i) : Except OpError α))
      cfg).calls = cfg.maxRetries + 1 ∧
    (executeWithRetry (fun i => (Except.error (errAt i) : Except OpError α))
      cfg).result = Except.error (.retriesExhausted (errAt cfg.maxRetries)) ∧
    (RetryFailure.retriesExhausted (errAt cfg.maxRetries)).isExhausted = true := by
  obtain ⟨h1, h2⟩ :=
    executeWithRetryAux_all_transient α errAt cfg.baseDelay hTr cfg.maxRetries 0
  refine ⟨h1, ?_, rfl⟩
  rw [executeWithRetry, h2]
  simp

/-- Claim C2 witness: a backend that answers every attempt with 503,
three retries configured: four calls, then a retries-exhausted
failure. -/
theorem executeWithRetry_exhausts_transient_witness :
    (executeWithRetry
      (fun i => (Except.error ((fun _ => (⟨503, true, "unavailable"⟩ : OpError)) i) :
        Except OpError Unit))
      (⟨3, 5⟩ : RetryConfig)).calls = 3 + 1 ∧
    (executeWithRetry
      (fun i => (Except.error ((fun _ => (⟨503, true, "unavailable"⟩ : OpError)) i) :
        Except OpError Unit))
      (⟨3, 5⟩ : RetryConfig)).result =
        Except.error (.retriesExhausted
          ((fun _ => (⟨503, true, "unavailable"⟩ : OpError)) (3 : Nat))) ∧
    (RetryFailure.retriesExhausted
      ((fun _ => (⟨503, true, "unavailable"⟩ : OpError)) (3 : Nat))).isExhausted =
        true :=
  executeWithRetry_exhausts_transient Unit
    (fun _ => (⟨503, true, "unavailable"⟩ : OpError)) ⟨3, 5⟩ (fun _ => rfl)

end SloTransform

namespace SloTransform

lemma range_map_shift {β : Type} (f : Nat → β) (n : Nat) :
    (List.range (n + 1)).map f = f 0 :: (List.range n).map (fun k => f (k + 1)) := by
  rw [List.range_succ_eq_map]
  simp [List.map_map, Function.comp]

lemma executeWithRetryAux_transient_then_ok (α : Type)
    (op : Nat → Except OpError α) (errAt : Nat → OpError) (v : α) (bd : Nat) :
    ∀ (N a r : Nat), N ≤ r →
    (∀ k, k < N →
      op (a + k) = .error (errAt (a + k)) ∧ (errAt (a + k)).transient = true) →
    op (a + N) = .ok v →
    executeWithRetryAux op bd a r =
      ⟨.ok v, N + 1,
        (List.range N).map (fun k => .retryWarn (a + k + 1) (errAt (a + k))),
        (List.range N).map (fun k => bd * 2 ^ (a + k))⟩ := by
  intro N
  induction N with
  | zero =>
      intro a r _ _ hok
      rw [executeWithRetryAux_ok op bd a r v (by simpa using hok)]
      simp
  | succ n ih =>
      intro a r hle hfail hok
      obtain ⟨hf0, ht0⟩ := hfail 0 (Nat.succ_pos n)
      obtain ⟨r2, rfl⟩ : ∃ r2, r = r2 + 1 := ⟨r - 1, by omega⟩
      rw [executeWithRetryAux_retry op bd a r2 (errAt a)
        (by simpa using hf0) (by simpa using ht0)]
      have hrec := ih (a + 1) r2 (by omega)
        (fun k hk => by
          have h := hfail (k + 1) (by omega)
          have e1 : a + (k + 1) = a + 1 + k := by omega
          rw [e1] at h
          exact h)
        (by
          have e2 : a + (n + 1) = a + 1 + n := by omega
          rw [e2] at hok
          exact hok)
      rw [hrec]
      rw [range_map_shift (fun k => LogEntry.retryWarn (a + k + 1) (errAt (a + k))) n]
      rw [range_map_shift (fun k => bd * 2 ^ (a + k)) n]
      simp only [Nat.add_zero]
      refine congrArg₂ (fun x y => RetryOutcome.mk (Except.ok v) (n + 1 + 1) x y) ?_ ?_
      · refine congrArg₂ List.cons rfl (List.map_congr_left ?_)
        intro k _
        have e3 : a + 1 + k = a + (k + 1) := by omega
        rw [e3]
      · refine congrArg₂ List.cons rfl (List.map_congr_left ?_)
        intro k _
        have e3 : a + 1 + k = a + (k + 1) := by omega
        rw [e3]

/-- Claim C3: for every operation whose first `N` attempts fail with
transient errors and whose next attempt succeeds, with `N` below
`maxRetries`, `executeWithRetry` returns that success after `N + 1`
calls, logs exactly `N` retry warnings, each carrying its attempt count
and the original error of the failed attempt, and sleeps
`baseDelay * 2 ^ attempt` before each retry, indexed by the attempt that
just failed. -/
theorem executeWithRetry_transient_then_success (α : Type)
    (errAt : Nat → OpError) (v : α) (N : Nat) (cfg : RetryConfig)
    (hTr : ∀ i, (errAt i).transient = true) (hN : N < cfg.maxRetries) :
    executeWithRetry
      (fun i => if i < N then (Except.error (errAt i) : Except OpError α)
        else Except.ok v) cfg =
      ⟨.ok v, N + 1,
        (List.range N).map (fun k => .retryWarn (k + 1) (errAt k)),
        (List.range N).map (fun k => cfg.baseDelay * 2 ^ k)⟩ := by
  rw [executeWithRetry]
  have h := executeWithRetryAux_transient_then_ok α
    (fun i => if i < N then (Except.error (errAt i) : Except OpError α)
      else Except.ok v)
    errAt v cfg.baseDelay N 0 cfg.maxRetries (Nat.le_of_lt hN)
    (fun k hk => by simp [hk, hTr]) (by simp)
  simpa using h

/-- Claim C3 witness: two transient 503 failures, then success, with
three retries allowed and base delay 5: success after three calls, two
retry warnings, delays 5 and 10. -/
theorem executeWithRetry_transient_then_success_witness :
    executeWithRetry
      (fun i => if i < 2 then
          (Except.error ((fun _ => (⟨503, true, "unavailable"⟩ : OpError)) i) :
            Except OpError Unit)
        else Except.ok ()) (⟨3, 5⟩ : RetryConfig) =
      ⟨.ok (), 2 + 1,
        (List.range 2).map
          (fun k => .retryWarn (k + 1)
            ((fun _ => (⟨503, true, "unavailable"⟩ : OpError)) k)),
        (List.range 2).map (fun k => (5 : Nat) * 2 ^ k)⟩ :=
  executeWithRetry_transient_then_success Unit
    (fun _ => (⟨503, true, "unavailable"⟩ : OpError)) () 2 ⟨3, 5⟩
    (fun _ => rfl) (by decide)

end SloTransform

namespace SloTransform

lemma executeWithRetryAux_no_mgrError (α : Type) (op : Nat → Except OpError α)
    (bd : Nat) (r : Nat) : ∀ a : Nat, ∀ l ∈ (executeWithRetryAux op bd a r).logs,
    l.isMgrError = false := by
  induction r with
  | zero =>
      intro a l hl
      rcases h : op a with e | v
      · by_cases ht : e.transient
        · rw [executeWithRetryAux_exhausted op bd a e h ht] at hl
          simp only [List.mem_singleton] at hl
          simp [hl, LogEntry.isMgrError]
        · rw [executeWithRetryAux_fatal op bd a 0 e h (by simpa using ht)] at hl
          simp only [List.mem_singleton] at hl
          simp [hl, LogEntry.isMgrError]
      · rw [executeWithRetryAux_ok op bd a 0 v h] at hl
        simp at hl
  | succ n ih =>
      intro a l hl
      rcases h : op a with e | v
      · by_cases ht : e.transient
        · rw [executeWithRetryAux_retry op bd a n e h ht] at hl
          simp only [List.mem_cons] at hl
          rcases hl with h1 | h2
          · simp [h1, LogEntry.isMgrError]
          · exact ih (a + 1) l h2
        · rw [executeWithRetryAux_fatal op bd a (n + 1) e h (by simpa using ht)] at hl
          simp only [List.mem_singleton] at hl
          simp [hl, LogEntry.isMgrError]
      · rw [executeWithRetryAux_ok op bd a (n + 1) v h] at hl
        simp at hl

lemma executeWithRetry_no_mgrError (α : Type) (op : Nat → Except OpError α)
    (cfg : RetryConfig) :
    (executeWithRetry op cfg).logs.filter LogEntry.isMgrError = [] := by
  rw [List.filter_eq_nil_iff]
  intro l hl
  simp [executeWithRetryAux_no_mgrError α op cfg.baseDelay cfg.maxRetries 0 l hl]

lemma wrapRetry_error (α : Type) (ro : RetryOutcome α) (req : EsRequest)
    (failMsg : String) (f : RetryFailure) (h : ro.result = .error f) :
    (wrapRetry ro req failMsg).result = .error (.retryErr f) ∧
    (wrapRetry ro req failMsg).logs = ro.logs ++ [.mgrError failMsg] := by
  unfold wrapRetry
  rw [h]
  simp

/-- Claim C7: for every lifecycle operation and every failure the retry
layer surfaces for that operation (that is, every backend error outside
that operation's own ignorable set — the esCall model already folds the
ignorable status codes into success, so such errors never reach this
path), the controller emits exactly one error-severity log entry of its
own, whose message names the operation's action (create / preview /
start / stop / delete) and embeds the transform id (or, for install, the
definition's indicator type), and re-raises the very same failure to the
caller; no error outside the ignorable-outcome table is swallowed.  Each
operation is given its own backend stream and its own failure
hypothesis, so every per-operation case is covered independently — for
example install failing on a 409 conflict, or start failing on a 404. -/
theorem operations_log_once_and_reraise
    (generators : String → Option TransformGenerator)
    (bInstall bPreview bStart bStop bUninstall : Nat → EsOutcome)
    (cfg : RetryConfig) (slo : SLO)
    (gen : TransformGenerator) (transformId : String)
    (fInstall fPreview fStart fStop fUninstall : RetryFailure)
    (hg : generators slo.indicator.type = some gen)
    (hInstall :
      (executeWithRetry (fun i => esCall (bInstall i) []) cfg).result =
        .error fInstall)
    (hPreview :
      (executeWithRetry (fun i => esCall (bPreview i) []) cfg).result =
        .error fPreview)
    (hStart :
      (executeWithRetry (fun i => esCall (bStart i) [409]) cfg).result =
        .error fStart)
    (hStop :
      (executeWithRetry (fun i => esCall (bStop i) [404]) cfg).result =
        .error fStop)
    (hUninstall :
      (executeWithRetry (fun i => esCall (bUninstall i) [404]) cfg).result =
        .error fUninstall) :
    ((DefaultTransformManager.install generators bInstall cfg slo).result =
        .error (.retryErr fInstall) ∧
      (DefaultTransformManager.install generators bInstall cfg
          slo).logs.filter LogEntry.isMgrError =
        [.mgrError ("Cannot create SLO transform for indicator type [" ++
          slo.indicator.type ++ "]")]) ∧
    ((DefaultTransformManager.preview bPreview cfg transformId).result =
        .error (.retryErr fPreview) ∧
      (DefaultTransformManager.preview bPreview cfg
          transformId).logs.filter LogEntry.isMgrError =
        [.mgrError ("Cannot preview SLO transform [" ++ transformId ++ "]")]) ∧
    ((DefaultTransformManager.start bStart cfg transformId).result =
        .error (.retryErr fStart) ∧
      (DefaultTransformManager.start bStart cfg
          transformId).logs.filter LogEntry.isMgrError =
        [.mgrError ("Cannot start SLO transform [" ++ transformId ++ "]")]) ∧
    ((DefaultTransformManager.stop bStop cfg transformId).result =
        .error (.retryErr fStop) ∧
      (DefaultTransformManager.stop bStop cfg
          transformId).logs.filter LogEntry.isMgrError =
        [.mgrError ("Cannot stop SLO transform [" ++ transformId ++ "]")]) ∧
    ((DefaultTransformManager.uninstall bUninstall cfg transformId).result =
        .error (.retryErr fUninstall) ∧
      (DefaultTransformManager.uninstall bUninstall cfg
          transformId).logs.filter LogEntry.isMgrError =
        [.mgrError ("Cannot delete SLO transform [" ++ transformId ++ "]")]) ∧
    ((LogEntry.mgrError ("Cannot create SLO transform for indicator type [" ++
        slo.indicator.type ++ "]")).sev = Severity.error ∧
      (LogEntry.mgrError ("Cannot preview SLO transform [" ++ transformId ++
        "]")).sev = Severity.error ∧
      (LogEntry.mgrError ("Cannot start SLO transform [" ++ transformId ++
        "]")).sev = Severity.error ∧
      (LogEntry.mgrError ("Cannot stop SLO transform [" ++ transformId ++
        "]")).sev = Severity.error ∧
      (LogEntry.mgrError ("Cannot delete SLO transform [" ++ transformId ++
        "]")).sev = Severity.error) := by
  have hnom := executeWithRetry_no_mgrError Unit
  refine ⟨?_, ?_, ?_, ?_, ?_, rfl, rfl, rfl, rfl, rfl⟩
  · simp only [DefaultTransformManager.install, hg]
    rw [hInstall]
    simp [List.filter_append,
      hnom (fun i => esCall (bInstall i) []) cfg, LogEntry.isMgrError]
  · obtain ⟨hr, hl⟩ := wrapRetry_error Unit
      (executeWithRetry (fun i => esCall (bPreview i) []) cfg)
      (.previewTransform transformId)
      ("Cannot preview SLO transform [" ++ transformId ++ "]") fPreview hPreview
    unfold DefaultTransformManager.preview
    refine ⟨hr, ?_⟩
    rw [hl, List.filter_append,
      hnom (fun i => esCall (bPreview i) []) cfg]
    simp [LogEntry.isMgrError]
  · obtain ⟨hr, hl⟩ := wrapRetry_error Unit
      (executeWithRetry (fun i => esCall (bStart i) [409]) cfg)
      (.startTransform transformId [409])
      ("Cannot start SLO transform [" ++ transformId ++ "]") fStart hStart
    unfold DefaultTransformManager.start
    refine ⟨hr, ?_⟩
    rw [hl, List.filter_append,
      hnom (fun i => esCall (bStart i) [409]) cfg]
    simp [LogEntry.isMgrError]
  · obtain ⟨hr, hl⟩ := wrapRetry_error Unit
      (executeWithRetry (fun i => esCall (bStop i) [404]) cfg)
      (.stopTransform transformId true true [404])
      ("Cannot stop SLO transform [" ++ transformId ++ "]") fStop hStop
    unfold DefaultTransformManager.stop
    refine ⟨hr, ?_⟩
    rw [hl, List.filter_append,
      hnom (fun i => esCall (bStop i) [404]) cfg]
    simp [LogEntry.isMgrError]
  · obtain ⟨hr, hl⟩ := wrapRetry_error Unit
      (executeWithRetry (fun i => esCall (bUninstall i) [404]) cfg)
      (.deleteTransform transformId true [404])
      ("Cannot delete SLO transform [" ++ transformId ++ "]") fUninstall
      hUninstall
    unfold DefaultTransformManager.uninstall
    refine ⟨hr, ?_⟩
    rw [hl, List.filter_append,
      hnom (fun i => esCall (bUninstall i) [404]) cfg]
    simp [LogEntry.isMgrError]

end SloTransform

namespace SloTransform

/-- Claim C7 witness, one backend stream per operation, no retries
configured, exercising errors outside each operation's own ignorable
set: install fails on a 409 conflict (its ignorable set is empty),
preview on a 404, start on a 404 (it ignores only 409), stop on a 409
(it ignores only 404), uninstall on a 500; each operation re-raises its
own fatal failure and logs exactly one controller error entry naming its
action and subject. -/
theorem operations_log_once_and_reraise_witness :
    ((DefaultTransformManager.install
        (fun _ => some ⟨fun _ => ⟨"slo-1", "b"⟩⟩)
        (fun _ => .err 409 false "conflict") ⟨0, 1⟩ ⟨⟨"sli.kql.custom"⟩⟩).result =
        .error (.retryErr (.fatal ⟨409, false, "conflict"⟩)) ∧
      (DefaultTransformManager.install
          (fun _ => some ⟨fun _ => ⟨"slo-1", "b"⟩⟩)
          (fun _ => .err 409 false "conflict") ⟨0, 1⟩
          ⟨⟨"sli.kql.custom"⟩⟩).logs.filter LogEntry.isMgrError =
        [.mgrError ("Cannot create SLO transform for indicator type [" ++
          "sli.kql.custom" ++ "]")]) ∧
    ((DefaultTransformManager.preview (fun _ => .err 404 false "not_found")
        ⟨0, 1⟩ "job-7").result =
        .error (.retryErr (.fatal ⟨404, false, "not_found"⟩)) ∧
      (DefaultTransformManager.preview (fun _ => .err 404 false "not_found")
          ⟨0, 1⟩ "job-7").logs.filter LogEntry.isMgrError =
        [.mgrError ("Cannot preview SLO transform [" ++ "job-7" ++ "]")]) ∧
    ((DefaultTransformManager.start (fun _ => .err 404 false "not_found")
        ⟨0, 1⟩ "job-7").result =
        .error (.retryErr (.fatal ⟨404, false, "not_found"⟩)) ∧
      (DefaultTransformManager.start (fun _ => .err 404 false "not_found")
          ⟨0, 1⟩ "job-7").logs.filter LogEntry.isMgrError =
        [.mgrError ("Cannot start SLO transform [" ++ "job-7" ++ "]")]) ∧
    ((DefaultTransformManager.stop (fun _ => .err 409 false "conflict")
        ⟨0, 1⟩ "job-7").result =
        .error (.retryErr (.fatal ⟨409, false, "conflict"⟩)) ∧
      (DefaultTransformManager.stop (fun _ => .err 409 false "conflict")
          ⟨0, 1⟩ "job-7").logs.filter LogEntry.isMgrError =
        [.mgrError ("Cannot stop SLO transform [" ++ "job-7" ++ "]")]) ∧
    ((DefaultTransformManager.uninstall (fun _ => .err 500 false "boom")
        ⟨0, 1⟩ "job-7").result =
        .error (.retryErr (.fatal ⟨500, false, "boom"⟩)) ∧
      (DefaultTransformManager.uninstall (fun _ => .err 500 false "boom")
          ⟨0, 1⟩ "job-7").logs.filter LogEntry.isMgrError =
        [.mgrError ("Cannot delete SLO transform [" ++ "job-7" ++ "]")]) ∧
    ((LogEntry.mgrError ("Cannot create SLO transform for indicator type [" ++
        "sli.kql.custom" ++ "]")).sev = Severity.error ∧
      (LogEntry.mgrError ("Cannot preview SLO transform [" ++ "job-7" ++
        "]")).sev = Severity.error ∧
      (LogEntry.mgrError ("Cannot start SLO transform [" ++ "job-7" ++
        "]")).sev = Severity.error ∧
      (LogEntry.mgrError ("Cannot stop SLO transform [" ++ "job-7" ++
        "]")).sev = Severity.error ∧
      (LogEntry.mgrError ("Cannot delete SLO transform [" ++ "job-7" ++
        "]")).sev = Severity.error) :=
  operations_log_once_and_reraise
    (fun _ => some ⟨fun _ => ⟨"slo-1", "b"⟩⟩)
    (fun _ => .err 409 false "conflict") (fun _ => .err 404 false "not_found")
    (fun _ => .err 404 false "not_found") (fun _ => .err 409 false "conflict")
    (fun _ => .err 500 false "boom") ⟨0, 1⟩ ⟨⟨"sli.kql.custom"⟩⟩
    ⟨fun _ => ⟨"slo-1", "b"⟩⟩ "job-7"
    (.fatal ⟨409, false, "conflict"⟩) (.fatal ⟨404, false, "not_found"⟩)
    (.fatal ⟨404, false, "not_found"⟩) (.fatal ⟨409, false, "conflict"⟩)
    (.fatal ⟨500, false, "boom"⟩) rfl rfl rfl rfl rfl rfl

end SloTransform
